import Mathlib

/-!
Shallow embedding of the persistence abstraction of a small clean-architecture
CRUD service: per-backend database connections (sqlite / mysql / firestore),
per-backend transaction managers (state machine over an `active` flag and a
cached native handle), the item datastore (repository implementation), and the
interactor orchestration (begin / repository call / commit, rollback on fault).

Python-level effects are made explicit: fallible calls return `Except DBError`,
mutable attributes become explicit state records, and calls into the native
driver are recorded in a trace (`List NativeCall`) and their outcomes supplied
by an environment record, since the drivers themselves are external libraries.
-/

/-- Scalar values appearing in result rows and statement parameters. -/
inductive Scalar
  | int (i : Int)
  | str (s : String)
  | null
  deriving DecidableEq, Repr

/-- A result row: mapping from column name to scalar value. -/
abbrev Row := List (String × Scalar)

/-- Named statement parameters. -/
abbrev Params := List (String × Scalar)

/-- Errors surfaced by the database layer.  `native` stands for any exception
raised by the underlying driver; `unsupported` models the
`NotImplementedError` raised by the firestore manager. -/
inductive DBError
  | native (msg : String)
  | unsupported (msg : String)
  deriving DecidableEq, Repr

/-- Calls made on the native driver connection, recorded as a trace. -/
inductive NativeCall
  | connect
  | exec (sql : String) (params : Params)
  | beginTx
  | commit
  | rollback
  deriving DecidableEq, Repr

/-! ## Statement classification

`sqlite_transaction_manager.py` / `mysql_transaction_manager.py` both decide
the read/write branch with `sql.strip().upper().startswith("SELECT")`.
We model `str.strip` as dropping whitespace characters from both ends and
`str.upper` as ASCII uppercasing (the statements involved are ASCII). -/

/-- Whitespace test used by the model of Python `str.strip`. -/
def pyWs (c : Char) : Bool := c.isWhitespace

/-- Model of Python `str.strip` on the character list of a string. -/
def stripL (s : List Char) : List Char :=
  ((s.dropWhile pyWs).reverse.dropWhile pyWs).reverse

/-- ASCII uppercasing of one character (model of Python `str.upper`). -/
def asciiUpper (c : Char) : Char :=
  match c with
  | 'a' => 'A' | 'b' => 'B' | 'c' => 'C' | 'd' => 'D' | 'e' => 'E'
  | 'f' => 'F' | 'g' => 'G' | 'h' => 'H' | 'i' => 'I' | 'j' => 'J'
  | 'k' => 'K' | 'l' => 'L' | 'm' => 'M' | 'n' => 'N' | 'o' => 'O'
  | 'p' => 'P' | 'q' => 'Q' | 'r' => 'R' | 's' => 'S' | 't' => 'T'
  | 'u' => 'U' | 'v' => 'V' | 'w' => 'W' | 'x' => 'X' | 'y' => 'Y'
  | 'z' => 'Z' | other => other

/-- ASCII lowercasing of one character (model of Python `str.lower`). -/
def asciiLower (c : Char) : Char :=
  match c with
  | 'A' => 'a' | 'B' => 'b' | 'C' => 'c' | 'D' => 'd' | 'E' => 'e'
  | 'F' => 'f' | 'G' => 'g' | 'H' => 'h' | 'I' => 'i' | 'J' => 'j'
  | 'K' => 'k' | 'L' => 'l' | 'M' => 'm' | 'N' => 'n' | 'O' => 'o'
  | 'P' => 'p' | 'Q' => 'q' | 'R' => 'r' | 'S' => 's' | 'T' => 't'
  | 'U' => 'u' | 'V' => 'v' | 'W' => 'w' | 'X' => 'x' | 'Y' => 'y'
  | 'Z' => 'z' | other => other

/-- Model of `sql.strip().upper().startswith("SELECT")` on a character list. -/
def isSelectL (s : List Char) : Bool :=
  "SELECT".data.isPrefixOf ((stripL s).map asciiUpper)

/-- The read/write classifier of both SQL transaction managers:
`sql.strip().upper().startswith("SELECT")`. -/
def isSelectSql (sql : String) : Bool :=
  isSelectL sql.data

example : isSelectSql "  select * from item " = true := by decide
example : isSelectSql "WITH t AS (SELECT 1) SELECT * FROM t" = false := by decide
example : isSelectSql "INSERT INTO item (name, price) VALUES (:name, :price)" = false := by decide

/-! ## Connections (sqlite.py / mysql.py / firestore.py)

Native handles are modelled as natural numbers handed out by a fresh-handle
allocator, so that "opens a new native handle" is observable.  The driver-level
open calls (`aiosqlite.connect`, `aiomysql.connect`, `firestore.Client(...)`)
are each modelled as an allocation. -/

/-- Allocator of fresh native handles. -/
structure HandleWorld where
  next : Nat
  deriving DecidableEq, Repr

/-- Opening a native connection yields a fresh handle. -/
def openHandle (w : HandleWorld) : Nat × HandleWorld :=
  (w.next, ⟨w.next + 1⟩)

/-- Model of `SQLiteConnection`: `db_path` plus the memoized `_connection`. -/
structure SQLiteConnection where
  db_path : String
  connection : Option Nat
  deriving DecidableEq, Repr

/-- Model of `SQLiteConnection.connect`: opens a handle only when `_connection is None`,
otherwise returns the cached handle. -/
def SQLiteConnection.connect (c : SQLiteConnection) (w : HandleWorld) :
    Nat × SQLiteConnection × HandleWorld :=
  match c.connection with
  | some h => (h, c, w)
  | none =>
      let (h, w') := openHandle w
      (h, { c with connection := some h }, w')

/-- Model of `MySQLConnection`: credentials plus the cached `_connection`. -/
structure MySQLConnection where
  host : String
  port : Nat
  user : String
  password : String
  database : String
  connection : Option Nat
  deriving DecidableEq, Repr

/-- Model of `MySQLConnection.connect`: unconditionally calls `aiomysql.connect(...)`
and overwrites `_connection` — there is no `is None` guard in the source. -/
def MySQLConnection.connect (c : MySQLConnection) (w : HandleWorld) :
    Nat × MySQLConnection × HandleWorld :=
  let (h, w') := openHandle w
  (h, { c with connection := some h }, w')

/-- Model of `FirestoreConnection`: project id, optional credentials path, cached
`_client`. -/
structure FirestoreConnection where
  project_id : String
  credentials_path : Option String
  client : Option Nat
  deriving DecidableEq, Repr

/-- Model of `FirestoreConnection.connect`: both branches (with or without a
credentials path) construct a fresh `firestore.Client` and overwrite
`_client` — no `is None` guard in the source. -/
def FirestoreConnection.connect (c : FirestoreConnection) (w : HandleWorld) :
    Nat × FirestoreConnection × HandleWorld :=
  let (h, w') := openHandle w
  (h, { c with client := some h }, w')

/-! ## Transaction managers

State from `TransactionManager.__init__`: `_connection_obj` (cached native
handle) and `_transaction_active`.  Native-call outcomes are supplied by an
environment record per backend; every method returns its result, the new
state, and the trace of native calls it made. -/

/-- Mutable state of a `TransactionManager`. -/
structure TMState where
  connection_obj : Option Nat
  transaction_active : Bool
  deriving DecidableEq, Repr

/-- Initial manager state (`_connection_obj = None`, `_transaction_active = False`). -/
def TMState.init : TMState := { connection_obj := none, transaction_active := false }

/-- Result of `cursor.fetchall()` / `cursor.description` / `cursor.rowcount`
for a successful aiosqlite execute. -/
structure SqliteCursor where
  resultRows : List (List Scalar)
  description : List String
  rowcount : Int
  deriving DecidableEq, Repr

/-- Result of a successful aiomysql `DictCursor` execute: `fetchall()` already
returns row mappings. -/
structure MySQLCursor where
  resultRows : List Row
  rowcount : Int
  deriving DecidableEq, Repr

/-- Outcomes of the native aiosqlite calls a `SQLiteTransactionManager` makes. -/
structure SqliteEnv where
  connectR : Except DBError Nat
  execR : String → Params → Except DBError SqliteCursor
  commitR : Except DBError Unit
  rollbackR : Except DBError Unit

/-- Outcomes of the native aiomysql calls a `MySQLTransactionManager` makes. -/
structure MySQLEnv where
  connectR : Except DBError Nat
  beginR : Except DBError Unit
  execR : String → Params → Except DBError MySQLCursor
  commitR : Except DBError Unit
  rollbackR : Except DBError Unit

/-- Outcome of the native connect call a `FirestoreTransactionManager` makes. -/
structure FirestoreEnv where
  connectR : Except DBError Nat

/-- Model of `SQLiteTransactionManager.begin`: lazily connect, then set the active
flag.  No check of the current flag. -/
def SQLiteTransactionManager.begin (env : SqliteEnv) (st : TMState) :
    Except DBError Unit × TMState × List NativeCall :=
  match st.connection_obj with
  | some _ => (.ok (), { st with transaction_active := true }, [])
  | none =>
      match env.connectR with
      | .error e => (.error e, st, [.connect])
      | .ok h =>
          (.ok (), { connection_obj := some h, transaction_active := true }, [.connect])

/-- Model of `SQLiteTransactionManager.commit`: native commit and flag reset, only when
a connection object exists and the transaction is active. -/
def SQLiteTransactionManager.commit (env : SqliteEnv) (st : TMState) :
    Except DBError Unit × TMState × List NativeCall :=
  match st.connection_obj, st.transaction_active with
  | some _, true =>
      match env.commitR with
      | .error e => (.error e, st, [.commit])
      | .ok _ => (.ok (), { st with transaction_active := false }, [.commit])
  | _, _ => (.ok (), st, [])

/-- Model of `SQLiteTransactionManager.rollback`: native rollback and flag reset, only
when a connection object exists and the transaction is active. -/
def SQLiteTransactionManager.rollback (env : SqliteEnv) (st : TMState) :
    Except DBError Unit × TMState × List NativeCall :=
  match st.connection_obj, st.transaction_active with
  | some _, true =>
      match env.rollbackR with
      | .error e => (.error e, st, [.rollback])
      | .ok _ => (.ok (), { st with transaction_active := false }, [.rollback])
  | _, _ => (.ok (), st, [])

/-- Body of `SQLiteTransactionManager.execute` after the lazy connect:
run the statement, then either map the fetched rows over the column names
(`dict(zip(columns, row))`) for a SELECT, or return the affected-rows marker,
committing first when no transaction is active. -/
def sqliteExecuteBody (env : SqliteEnv) (st : TMState) (sql : String)
    (params : Params) (pre : List NativeCall) :
    Except DBError (List Row) × TMState × List NativeCall :=
  match env.execR sql params with
  | .error e => (.error e, st, pre ++ [.exec sql params])
  | .ok cur =>
      if isSelectSql sql then
        (.ok (cur.resultRows.map fun r => cur.description.zip r), st,
          pre ++ [.exec sql params])
      else
        if st.transaction_active then
          (.ok [[("affected_rows", Scalar.int cur.rowcount)]], st,
            pre ++ [.exec sql params])
        else
          match env.commitR with
          | .error e => (.error e, st, pre ++ [.exec sql params, .commit])
          | .ok _ =>
              (.ok [[("affected_rows", Scalar.int cur.rowcount)]], st,
                pre ++ [.exec sql params, .commit])

/-- Model of `SQLiteTransactionManager.execute`: lazily connect, then run the body. -/
def SQLiteTransactionManager.execute (env : SqliteEnv) (st : TMState)
    (sql : String) (params : Params) :
    Except DBError (List Row) × TMState × List NativeCall :=
  match st.connection_obj with
  | some _ => sqliteExecuteBody env st sql params []
  | none =>
      match env.connectR with
      | .error e => (.error e, st, [.connect])
      | .ok h =>
          sqliteExecuteBody env { st with connection_obj := some h } sql params
            [.connect]

/-- Model of `MySQLTransactionManager.begin`: lazily connect, issue a native `BEGIN`,
then set the active flag.  No check of the current flag. -/
def MySQLTransactionManager.begin (env : MySQLEnv) (st : TMState) :
    Except DBError Unit × TMState × List NativeCall :=
  match st.connection_obj with
  | some _ =>
      match env.beginR with
      | .error e => (.error e, st, [.beginTx])
      | .ok _ => (.ok (), { st with transaction_active := true }, [.beginTx])
  | none =>
      match env.connectR with
      | .error e => (.error e, st, [.connect])
      | .ok h =>
          match env.beginR with
          | .error e =>
              (.error e, { st with connection_obj := some h }, [.connect, .beginTx])
          | .ok _ =>
              (.ok (), { connection_obj := some h, transaction_active := true },
                [.connect, .beginTx])

/-- Model of `MySQLTransactionManager.commit`: native commit and flag reset, only when
a connection object exists and the transaction is active. -/
def MySQLTransactionManager.commit (env : MySQLEnv) (st : TMState) :
    Except DBError Unit × TMState × List NativeCall :=
  match st.connection_obj, st.transaction_active with
  | some _, true =>
      match env.commitR with
      | .error e => (.error e, st, [.commit])
      | .ok _ => (.ok (), { st with transaction_active := false }, [.commit])
  | _, _ => (.ok (), st, [])

/-- Model of `MySQLTransactionManager.rollback`: native rollback and flag reset, only
when a connection object exists and the transaction is active. -/
def MySQLTransactionManager.rollback (env : MySQLEnv) (st : TMState) :
    Except DBError Unit × TMState × List NativeCall :=
  match st.connection_obj, st.transaction_active with
  | some _, true =>
      match env.rollbackR with
      | .error e => (.error e, st, [.rollback])
      | .ok _ => (.ok (), { st with transaction_active := false }, [.rollback])
  | _, _ => (.ok (), st, [])

/-- Body of `MySQLTransactionManager.execute` after the lazy connect: run the
statement on a `DictCursor`, return its rows for a SELECT, otherwise the
affected-rows marker, committing first when no transaction is active. -/
def mysqlExecuteBody (env : MySQLEnv) (st : TMState) (sql : String)
    (params : Params) (pre : List NativeCall) :
    Except DBError (List Row) × TMState × List NativeCall :=
  match env.execR sql params with
  | .error e => (.error e, st, pre ++ [.exec sql params])
  | .ok cur =>
      if isSelectSql sql then
        (.ok cur.resultRows, st, pre ++ [.exec sql params])
      else
        if st.transaction_active then
          (.ok [[("affected_rows", Scalar.int cur.rowcount)]], st,
            pre ++ [.exec sql params])
        else
          match env.commitR with
          | .error e => (.error e, st, pre ++ [.exec sql params, .commit])
          | .ok _ =>
              (.ok [[("affected_rows", Scalar.int cur.rowcount)]], st,
                pre ++ [.exec sql params, .commit])

/-- Model of `MySQLTransactionManager.execute`: lazily connect, then run the body. -/
def MySQLTransactionManager.execute (env : MySQLEnv) (st : TMState)
    (sql : String) (params : Params) :
    Except DBError (List Row) × TMState × List NativeCall :=
  match st.connection_obj with
  | some _ => mysqlExecuteBody env st sql params []
  | none =>
      match env.connectR with
      | .error e => (.error e, st, [.connect])
      | .ok h =>
          mysqlExecuteBody env { st with connection_obj := some h } sql params
            [.connect]

/-- Model of `FirestoreTransactionManager.begin`: lazily connect, then set the active
flag. -/
def FirestoreTransactionManager.begin (env : FirestoreEnv) (st : TMState) :
    Except DBError Unit × TMState × List NativeCall :=
  match st.connection_obj with
  | some _ => (.ok (), { st with transaction_active := true }, [])
  | none =>
      match env.connectR with
      | .error e => (.error e, st, [.connect])
      | .ok h =>
          (.ok (), { connection_obj := some h, transaction_active := true }, [.connect])

/-- Model of `FirestoreTransactionManager.commit`: only clears the active flag (guarded
by connection object and active flag); no native call. -/
def FirestoreTransactionManager.commit (st : TMState) :
    Except DBError Unit × TMState × List NativeCall :=
  match st.connection_obj, st.transaction_active with
  | some _, true => (.ok (), { st with transaction_active := false }, [])
  | _, _ => (.ok (), st, [])

/-- Model of `FirestoreTransactionManager.rollback`: only clears the active flag
(guarded by connection object and active flag); no native call. -/
def FirestoreTransactionManager.rollback (st : TMState) :
    Except DBError Unit × TMState × List NativeCall :=
  match st.connection_obj, st.transaction_active with
  | some _, true => (.ok (), { st with transaction_active := false }, [])
  | _, _ => (.ok (), st, [])

/-- The message of the `NotImplementedError` raised by
`FirestoreTransactionManager.execute` (the concatenated literal with the
attempted SQL interpolated at the end). -/
def firestoreMsg (sql : String) : String :=
  "Firestore does not support SQL-based operations. " ++
  "SQL execution is not implemented for Firestore. " ++
  "Please use a SQL-compatible database (SQLite or MySQL) or implement " ++
  "Firestore-specific query methods. Attempted SQL: " ++ sql

/-- Model of `FirestoreTransactionManager.execute`: unconditionally raises
`NotImplementedError` naming the attempted SQL; no state change, no native
call. -/
def FirestoreTransactionManager.execute (st : TMState) (sql : String)
    (_params : Params) :
    Except DBError (List Row) × TMState × List NativeCall :=
  (.error (.unsupported (firestoreMsg sql)), st, [])

/-! ## Item model and datastore (model/item.py, datastore/item.py)

`ItemModel` is a pydantic model with `name : str`, `price : float`,
`id : Optional[int]`.  Float values play no computational role in any claim,
so `price` is kept as an opaque scalar.  `ItemModel(**row)` (pydantic
validation, outside the try-blocks in the source) is modelled by
`itemModelOfRow`. -/

/-- The `ItemModel` pydantic model. -/
structure ItemModel where
  name : String
  price : Scalar
  id : Option Int
  deriving DecidableEq, Repr

/-- Column lookup in a row mapping. -/
def lookupCol (k : String) (r : Row) : Option Scalar :=
  (r.find? (fun p => p.1 == k)).map (·.2)

/-- Model of `ItemModel(**row)`: requires a string `name` and a `price`;
`id` is optional and must be an integer when present. -/
def itemModelOfRow (r : Row) : Except DBError ItemModel :=
  match lookupCol "name" r, lookupCol "price" r with
  | some (.str n), some p =>
      match lookupCol "id" r with
      | some (.int i) => .ok ⟨n, p, some i⟩
      | none => .ok ⟨n, p, none⟩
      | some _ => .error (.native "ItemModel validation error")
  | _, _ => .error (.native "ItemModel validation error")

/-- The `ConnectionProtocol` as the datastore sees it: one fallible
`execute(sql, params)` returning rows. -/
structure ConnO where
  exec : String → Params → Except DBError (List Row)

/-- SQL text of `ItemDatastore.get_items`. -/
def sqlGetItems : String := "SELECT * FROM item"

/-- SQL text of `ItemDatastore.get_item`. -/
def sqlGetItem : String := "SELECT * FROM item WHERE id = :id"

/-- SQL text of `ItemDatastore.create_item`. -/
def sqlCreateItem : String := "INSERT INTO item (name, price) VALUES (:name, :price)"

/-- SQL text of `ItemDatastore.update_item`. -/
def sqlUpdateItem : String := "UPDATE item SET name = :name, price = :price WHERE id = :id"

/-- SQL text of `ItemDatastore.delete_item`. -/
def sqlDeleteItem : String := "DELETE FROM item WHERE id = :id"

/-- Model of `ItemDatastore.get_items`: on an execute failure, log and return `[]`;
otherwise map the rows through `ItemModel(**row)`. -/
def ItemDatastore.get_items (c : ConnO) : Except DBError (List ItemModel) :=
  match c.exec sqlGetItems [] with
  | .error _ => .ok []
  | .ok rows => rows.mapM itemModelOfRow

/-- Model of `ItemDatastore.get_item`: on an execute failure, log and return `None`;
otherwise `ItemModel(**rows[0]) if rows else None`. -/
def ItemDatastore.get_item (item_id : Int) (c : ConnO) :
    Except DBError (Option ItemModel) :=
  match c.exec sqlGetItem [("id", .int item_id)] with
  | .error _ => .ok none
  | .ok [] => .ok none
  | .ok (r :: _) => (itemModelOfRow r).map some

/-- Model of `ItemDatastore.create_item`: on an execute failure, log and re-raise. -/
def ItemDatastore.create_item (item : ItemModel) (c : ConnO) :
    Except DBError Unit :=
  match c.exec sqlCreateItem [("name", .str item.name), ("price", item.price)] with
  | .error e => .error e
  | .ok _ => .ok ()

/-- Model of `ItemDatastore.update_item`: on an execute failure, log and re-raise. -/
def ItemDatastore.update_item (item_id : Int) (item : ItemModel) (c : ConnO) :
    Except DBError Unit :=
  match c.exec sqlUpdateItem
      [("name", .str item.name), ("price", item.price), ("id", .int item_id)] with
  | .error e => .error e
  | .ok _ => .ok ()

/-- Model of `ItemDatastore.delete_item`: on an execute failure, log and re-raise. -/
def ItemDatastore.delete_item (item_id : Int) (c : ConnO) :
    Except DBError Unit :=
  match c.exec sqlDeleteItem [("id", .int item_id)] with
  | .error e => .error e
  | .ok _ => .ok ()

/-! ## Interactor orchestration (interactor/item.py)

Every method runs `begin(); <repository call>; commit()` inside a try-block
and on any exception runs `rollback()` and bare-`raise`s.  The outcomes of
the four calls, as the interactor observes them, form the environment; the
trace records which orchestration calls were made. -/

/-- Orchestration-level calls an interactor method makes. -/
inductive OrchCall
  | beginc
  | repoc
  | commitc
  | rollbackc
  deriving DecidableEq, Repr

/-- Outcomes of the transaction-manager and repository calls one interactor
method makes. -/
structure InteractorEnv (α : Type) where
  beginR : Except DBError Unit
  repoR : Except DBError α
  commitR : Except DBError Unit
  rollbackR : Except DBError Unit

/-- The except-branch shared by every interactor method: `rollback()` then a
bare `raise`.  If the rollback itself raises, Python propagates the rollback
exception instead of the original one. -/
def interactorOnFault {α : Type} (env : InteractorEnv α) (e : DBError)
    (pre : List OrchCall) : Except DBError α × List OrchCall :=
  match env.rollbackR with
  | .ok _ => (.error e, pre ++ [.rollbackc])
  | .error e2 => (.error e2, pre ++ [.rollbackc])

/-- The try-block shared by every interactor method: begin, repository call,
commit; any fault falls to `interactorOnFault`. -/
def interactorBody {α : Type} (env : InteractorEnv α) :
    Except DBError α × List OrchCall :=
  match env.beginR with
  | .error e => interactorOnFault env e [.beginc]
  | .ok _ =>
      match env.repoR with
      | .error e => interactorOnFault env e [.beginc, .repoc]
      | .ok x =>
          match env.commitR with
          | .error e => interactorOnFault env e [.beginc, .repoc, .commitc]
          | .ok _ => (.ok x, [.beginc, .repoc, .commitc])

/-- Model of `ItemInteractor.get_items`. -/
def ItemInteractor.get_items (env : InteractorEnv (List ItemModel)) :
    Except DBError (List ItemModel) × List OrchCall :=
  interactorBody env

/-- Model of `ItemInteractor.get_item`. -/
def ItemInteractor.get_item (env : InteractorEnv (Option ItemModel)) :
    Except DBError (Option ItemModel) × List OrchCall :=
  interactorBody env

/-- Model of `ItemInteractor.create_item`. -/
def ItemInteractor.create_item (env : InteractorEnv Unit) :
    Except DBError Unit × List OrchCall :=
  interactorBody env

/-- Model of `ItemInteractor.update_item`.  The extra
`await self._get_transaction_manager()` before the try-block returns
`self.transaction_manager` and cannot fail. -/
def ItemInteractor.update_item (env : InteractorEnv Unit) :
    Except DBError Unit × List OrchCall :=
  interactorBody env

/-- Model of `ItemInteractor.delete_item`. -/
def ItemInteractor.delete_item (env : InteractorEnv Unit) :
    Except DBError Unit × List OrchCall :=
  interactorBody env

/-! ## Theorems -/

/-- The orchestration contract one interactor method satisfies: whichever of
begin / repository call / commit faults first, rollback is invoked and (when
the rollback itself succeeds) the original fault is returned unchanged; on
the all-success path the calls are exactly begin, repository call, commit. -/
def OrchContract {α : Type}
    (f : InteractorEnv α → Except DBError α × List OrchCall) : Prop :=
  ∀ env : InteractorEnv α,
    (∀ e : DBError,
      (env.beginR = .error e ∨
        (env.beginR = .ok () ∧ env.repoR = .error e) ∨
        (env.beginR = .ok () ∧ (∃ x, env.repoR = .ok x) ∧ env.commitR = .error e)) →
      OrchCall.rollbackc ∈ (f env).2 ∧
        (env.rollbackR = .ok () → (f env).1 = .error e)) ∧
    (∀ x, env.beginR = .ok () → env.repoR = .ok x → env.commitR = .ok () →
      (f env).1 = .ok x ∧ (f env).2 = [.beginc, .repoc, .commitc])

theorem interactorOnFault_spec {α : Type} (env : InteractorEnv α) (e : DBError)
    (pre : List OrchCall) :
    OrchCall.rollbackc ∈ (interactorOnFault env e pre).2 ∧
      (env.rollbackR = .ok () → (interactorOnFault env e pre).1 = .error e) := by
  cases hr : env.rollbackR with
  | ok u => simp [interactorOnFault, hr]
  | error e2 => simp [interactorOnFault, hr]

theorem interactorBody_contract {α : Type} :
    OrchContract (interactorBody (α := α)) := by
  intro env
  refine ⟨?_, ?_⟩
  · rintro e (h | ⟨hb, h⟩ | ⟨hb, ⟨x, hx⟩, h⟩)
    · simpa [interactorBody, h] using interactorOnFault_spec env e [.beginc]
    · simpa [interactorBody, hb, h] using
        interactorOnFault_spec env e [.beginc, .repoc]
    · simpa [interactorBody, hb, hx, h] using
        interactorOnFault_spec env e [.beginc, .repoc, .commitc]
  · intro x hb hx hc
    simp [interactorBody, hb, hx, hc]

/-- C1: every interactor operation (get_items, get_item, create_item,
update_item, delete_item) invokes rollback and re-raises the original
exception unchanged when any call inside the begin/commit block faults (given
the rollback call itself succeeds), and on success commits without ever
rolling back. -/
theorem c1_interactor_fault_transparency :
    OrchContract ItemInteractor.get_items ∧
    OrchContract ItemInteractor.get_item ∧
    OrchContract ItemInteractor.create_item ∧
    OrchContract ItemInteractor.update_item ∧
    OrchContract ItemInteractor.delete_item :=
  ⟨interactorBody_contract, interactorBody_contract, interactorBody_contract,
    interactorBody_contract, interactorBody_contract⟩

/-- Environment in which the repository call fails and everything else
succeeds. -/
def envRepoFault : InteractorEnv Unit :=
  { beginR := .ok (), repoR := .error (.native "boom"), commitR := .ok (),
    rollbackR := .ok () }

/-- Environment in which every call succeeds. -/
def envAllOk : InteractorEnv Unit :=
  { beginR := .ok (), repoR := .ok (), commitR := .ok (), rollbackR := .ok () }

/-- Witness for C1 at concrete environments: a failing repository call leads
to rollback plus the original error, and the success path performs
begin, repository call, commit. -/
theorem c1_interactor_fault_transparency_witness :
    (OrchCall.rollbackc ∈ (ItemInteractor.create_item envRepoFault).2 ∧
      (ItemInteractor.create_item envRepoFault).1 = .error (.native "boom")) ∧
    ((ItemInteractor.delete_item envAllOk).1 = .ok () ∧
      (ItemInteractor.delete_item envAllOk).2 = [.beginc, .repoc, .commitc]) := by
  refine ⟨?_, ?_⟩
  · have h := (c1_interactor_fault_transparency.2.2.1 envRepoFault).1
      (.native "boom") (Or.inr (Or.inl ⟨rfl, rfl⟩))
    exact ⟨h.1, h.2 rfl⟩
  · exact (c1_interactor_fault_transparency.2.2.2.2 envAllOk).2 () rfl rfl rfl

/-- C7: for every connection on which execute faults, the datastore read
operations swallow the fault (get_items returns `[]`, get_item returns
`none`) while the write operations re-raise the very same fault. -/
theorem c7_datastore_read_swallow_write_reraise :
    ∀ (c : ConnO) (e : DBError) (item : ItemModel) (item_id : Int),
      (c.exec sqlGetItems [] = .error e →
        ItemDatastore.get_items c = .ok []) ∧
      (c.exec sqlGetItem [("id", .int item_id)] = .error e →
        ItemDatastore.get_item item_id c = .ok none) ∧
      (c.exec sqlCreateItem [("name", .str item.name), ("price", item.price)] =
          .error e →
        ItemDatastore.create_item item c = .error e) ∧
      (c.exec sqlUpdateItem
          [("name", .str item.name), ("price", item.price), ("id", .int item_id)] =
          .error e →
        ItemDatastore.update_item item_id item c = .error e) ∧
      (c.exec sqlDeleteItem [("id", .int item_id)] = .error e →
        ItemDatastore.delete_item item_id c = .error e) := by
  intro c e item item_id
  refine ⟨?_, ?_, ?_, ?_, ?_⟩ <;> intro h <;>
    simp [ItemDatastore.get_items, ItemDatastore.get_item,
      ItemDatastore.create_item, ItemDatastore.update_item,
      ItemDatastore.delete_item, h]

/-- A connection on which every execute call fails. -/
def connAllFail : ConnO := ⟨fun _ _ => .error (.native "db down")⟩

/-- Witness for C7 at a concrete always-failing connection. -/
theorem c7_datastore_read_swallow_write_reraise_witness :
    ItemDatastore.get_items connAllFail = .ok [] ∧
    ItemDatastore.get_item 1 connAllFail = .ok none ∧
    ItemDatastore.create_item ⟨"w", .int 1, none⟩ connAllFail =
      .error (.native "db down") ∧
    ItemDatastore.update_item 1 ⟨"w", .int 1, none⟩ connAllFail =
      .error (.native "db down") ∧
    ItemDatastore.delete_item 1 connAllFail = .error (.native "db down") := by
  have h := c7_datastore_read_swallow_write_reraise connAllFail
    (.native "db down") ⟨"w", .int 1, none⟩ 1
  exact ⟨h.1 rfl, h.2.1 rfl, h.2.2.1 rfl, h.2.2.2.1 rfl, h.2.2.2.2 rfl⟩

/-- C2: for every statement and parameter mapping, the firestore manager's
execute raises an unsupported-operation error whose message contains the
attempted statement and never returns a result; consequently the sequence
begin / execute / rollback faults at the execute step. -/
theorem c2_firestore_execute_unsupported :
    ∀ (st : TMState) (sql : String) (params : Params) (env : FirestoreEnv),
      FirestoreTransactionManager.execute st sql params =
        (.error (.unsupported (firestoreMsg sql)), st, []) ∧
      (∃ pre, firestoreMsg sql = pre ++ sql) ∧
      (∀ st' tr, FirestoreTransactionManager.begin env st = (.ok (), st', tr) →
        (FirestoreTransactionManager.execute st' sql params).1 =
          .error (.unsupported (firestoreMsg sql))) := by
  intro st sql params env
  refine ⟨rfl, ⟨"Firestore does not support SQL-based operations. SQL execution is not implemented for Firestore. Please use a SQL-compatible database (SQLite or MySQL) or implement Firestore-specific query methods. Attempted SQL: ", rfl⟩, ?_⟩
  intro st' tr _
  rfl

/-- Witness for C2: the begin / execute(insert) / rollback sequence on the
document store faults at the execute step with the statement named in the
message. -/
theorem c2_firestore_execute_unsupported_witness :
    (FirestoreTransactionManager.execute
        { connection_obj := some 0, transaction_active := true }
        sqlCreateItem [("name", .str "w"), ("price", .int 1)]).1 =
      .error (.unsupported (firestoreMsg sqlCreateItem)) := by
  have h := c2_firestore_execute_unsupported
    { connection_obj := some 0, transaction_active := false } sqlCreateItem
    [("name", .str "w"), ("price", .int 1)] ⟨.ok 0⟩
  exact h.2.2 { connection_obj := some 0, transaction_active := true } [] rfl

/-- A mysql connection value with the documented default configuration and no
cached handle. -/
def mysqlConn0 : MySQLConnection :=
  { host := "localhost", port := 3306, user := "root", password := "",
    database := "test", connection := none }

/-- Counterexample to C3 as stated: on the client-server-sql backend a second
connect() after a successful connect() returns a different (freshly opened)
native handle, because `MySQLConnection.connect` has no memoization guard. -/
theorem c3_counterexample_mysql_reconnect :
    ((mysqlConn0.connect ⟨0⟩).2.1.connect (mysqlConn0.connect ⟨0⟩).2.2).1 ≠
      (mysqlConn0.connect ⟨0⟩).1 := by decide

/-- C3 amended: only the embedded-sql connection is idempotent — its second
connect() returns the first handle and opens nothing — while the
client-server-sql and document-store connections open a fresh native handle
on every call, overwriting the cached one. -/
theorem c3_amended_connect_idempotence :
    ∀ (c : SQLiteConnection) (m : MySQLConnection) (f : FirestoreConnection)
      (w : HandleWorld),
      ((c.connect w).2.1.connect (c.connect w).2.2 =
        ((c.connect w).1, (c.connect w).2.1, (c.connect w).2.2)) ∧
      ((m.connect w).1 = w.next ∧ (m.connect w).2.2.next = w.next + 1) ∧
      ((f.connect w).1 = w.next ∧ (f.connect w).2.2.next = w.next + 1) := by
  intro c m f w
  refine ⟨?_, ⟨rfl, rfl⟩, ⟨rfl, rfl⟩⟩
  cases hc : c.connection with
  | some h => simp [SQLiteConnection.connect, hc]
  | none => simp [SQLiteConnection.connect, openHandle, hc]

/-- C4: for every backend manager, commit() and rollback() move an Active
state (with a connection object) to Idle — issuing the native call where the
backend has one — and are complete no-ops (no native call, state unchanged)
when the manager is Idle or has no connection object. -/
theorem c4_commit_rollback_state_machine :
    ∀ (envS : SqliteEnv) (envM : MySQLEnv) (st : TMState) (h : Nat),
      (st = { connection_obj := some h, transaction_active := true } →
        (envS.commitR = .ok () →
          SQLiteTransactionManager.commit envS st =
            (.ok (), { st with transaction_active := false }, [.commit])) ∧
        (envS.rollbackR = .ok () →
          SQLiteTransactionManager.rollback envS st =
            (.ok (), { st with transaction_active := false }, [.rollback])) ∧
        (envM.commitR = .ok () →
          MySQLTransactionManager.commit envM st =
            (.ok (), { st with transaction_active := false }, [.commit])) ∧
        (envM.rollbackR = .ok () →
          MySQLTransactionManager.rollback envM st =
            (.ok (), { st with transaction_active := false }, [.rollback])) ∧
        FirestoreTransactionManager.commit st =
          (.ok (), { st with transaction_active := false }, []) ∧
        FirestoreTransactionManager.rollback st =
          (.ok (), { st with transaction_active := false }, [])) ∧
      (st.transaction_active = false ∨ st.connection_obj = none →
        SQLiteTransactionManager.commit envS st = (.ok (), st, []) ∧
        SQLiteTransactionManager.rollback envS st = (.ok (), st, []) ∧
        MySQLTransactionManager.commit envM st = (.ok (), st, []) ∧
        MySQLTransactionManager.rollback envM st = (.ok (), st, []) ∧
        FirestoreTransactionManager.commit st = (.ok (), st, []) ∧
        FirestoreTransactionManager.rollback st = (.ok (), st, [])) := by
  intro envS envM st h
  refine ⟨?_, ?_⟩
  · intro hst
    subst hst
    refine ⟨?_, ?_, ?_, ?_, rfl, rfl⟩ <;> intro hok <;>
      simp [SQLiteTransactionManager.commit, SQLiteTransactionManager.rollback,
        MySQLTransactionManager.commit, MySQLTransactionManager.rollback, hok]
  · intro hcase
    obtain ⟨conn, act⟩ := st
    rcases hcase with hact | hconn
    · simp only at hact
      subst hact
      cases conn <;>
        simp [SQLiteTransactionManager.commit, SQLiteTransactionManager.rollback,
          MySQLTransactionManager.commit, MySQLTransactionManager.rollback,
          FirestoreTransactionManager.commit, FirestoreTransactionManager.rollback]
    · simp only at hconn
      subst hconn
      cases act <;>
        simp [SQLiteTransactionManager.commit, SQLiteTransactionManager.rollback,
          MySQLTransactionManager.commit, MySQLTransactionManager.rollback,
          FirestoreTransactionManager.commit, FirestoreTransactionManager.rollback]

/-- Environment whose native calls all succeed (sqlite). -/
def sqliteEnvTrivial : SqliteEnv :=
  { connectR := .ok 0, execR := fun _ _ => .error (.native "unused"),
    commitR := .ok (), rollbackR := .ok () }

/-- Environment whose native calls all succeed (mysql). -/
def mysqlEnvTrivial : MySQLEnv :=
  { connectR := .ok 0, beginR := .ok (),
    execR := fun _ _ => .error (.native "unused"),
    commitR := .ok (), rollbackR := .ok () }

/-- A manager state with a cached connection and an active transaction. -/
def tmActive : TMState := { connection_obj := some 0, transaction_active := true }

/-- Witness for C4 at concrete states: commit from Active goes to Idle with
one native commit; rollback from Idle is a no-op. -/
theorem c4_commit_rollback_state_machine_witness :
    SQLiteTransactionManager.commit sqliteEnvTrivial tmActive =
      (.ok (), { tmActive with transaction_active := false }, [.commit]) ∧
    SQLiteTransactionManager.rollback sqliteEnvTrivial
        { connection_obj := some 0, transaction_active := false } =
      (.ok (), { connection_obj := some 0, transaction_active := false }, []) := by
  refine ⟨?_, ?_⟩
  · exact ((c4_commit_rollback_state_machine sqliteEnvTrivial mysqlEnvTrivial
      tmActive 0).1 rfl).1 rfl
  · exact ((c4_commit_rollback_state_machine sqliteEnvTrivial mysqlEnvTrivial
      { connection_obj := some 0, transaction_active := false } 0).2
      (Or.inl rfl)).2.1

/-- Counterexample to C6 as stated: with a transaction already active, a
further begin() on the embedded-sql manager returns successfully (state still
Active, no native call) instead of raising. -/
theorem c6_counterexample_second_begin_ok :
    SQLiteTransactionManager.begin sqliteEnvTrivial tmActive =
      (.ok (), tmActive, []) := rfl

/-- C6 amended: begin() while a transaction is already active is not
rejected: the embedded-sql and document-store managers return successfully
leaving the state Active with no native call, and the client-server manager
returns successfully after issuing another native BEGIN (when that native
call succeeds) — the open transaction is silently continued. -/
theorem c6_amended_second_begin_not_rejected :
    ∀ (envS : SqliteEnv) (envM : MySQLEnv) (envF : FirestoreEnv) (st : TMState)
      (h : Nat),
      st = { connection_obj := some h, transaction_active := true } →
      SQLiteTransactionManager.begin envS st = (.ok (), st, []) ∧
      FirestoreTransactionManager.begin envF st = (.ok (), st, []) ∧
      (envM.beginR = .ok () →
        MySQLTransactionManager.begin envM st = (.ok (), st, [.beginTx])) := by
  intro envS envM envF st h hst
  subst hst
  refine ⟨rfl, rfl, fun hok => ?_⟩
  simp [MySQLTransactionManager.begin, hok]

/-- Witness for C6 amended at a concrete Active state. -/
theorem c6_amended_second_begin_not_rejected_witness :
    SQLiteTransactionManager.begin sqliteEnvTrivial
        { connection_obj := some 1, transaction_active := true } =
      (.ok (), { connection_obj := some 1, transaction_active := true }, []) ∧
    MySQLTransactionManager.begin mysqlEnvTrivial
        { connection_obj := some 1, transaction_active := true } =
      (.ok (), { connection_obj := some 1, transaction_active := true },
        [.beginTx]) := by
  have h := c6_amended_second_begin_not_rejected sqliteEnvTrivial mysqlEnvTrivial
    ⟨.ok 0⟩ { connection_obj := some 1, transaction_active := true } 1 rfl
  exact ⟨h.1, h.2.2 rfl⟩

/-- C9: when no connection object is cached and the lazy connect faults, the
error propagates and the manager state is unchanged — the cached connection
stays absent and the active flag keeps its prior value. -/
theorem c9_connect_fault_leaves_state :
    ∀ (envS : SqliteEnv) (envM : MySQLEnv) (envF : FirestoreEnv) (act : Bool)
      (st : TMState) (e : DBError) (sql : String) (params : Params),
      st = { connection_obj := none, transaction_active := act } →
      (envS.connectR = .error e →
        SQLiteTransactionManager.begin envS st = (.error e, st, [.connect]) ∧
        SQLiteTransactionManager.execute envS st sql params =
          (.error e, st, [.connect])) ∧
      (envM.connectR = .error e →
        MySQLTransactionManager.begin envM st = (.error e, st, [.connect]) ∧
        MySQLTransactionManager.execute envM st sql params =
          (.error e, st, [.connect])) ∧
      (envF.connectR = .error e →
        FirestoreTransactionManager.begin envF st = (.error e, st, [.connect])) := by
  intro envS envM envF act st e sql params hst
  subst hst
  refine ⟨fun hf => ⟨?_, ?_⟩, fun hf => ⟨?_, ?_⟩, fun hf => ?_⟩ <;>
    simp [SQLiteTransactionManager.begin, SQLiteTransactionManager.execute,
      MySQLTransactionManager.begin, MySQLTransactionManager.execute,
      FirestoreTransactionManager.begin, hf]

/-- Environment whose native connect fails (sqlite). -/
def sqliteEnvConnFail : SqliteEnv :=
  { connectR := .error (.native "refused"),
    execR := fun _ _ => .error (.native "unused"),
    commitR := .ok (), rollbackR := .ok () }

/-- Witness for C9 at a concrete Idle, unconnected state. -/
theorem c9_connect_fault_leaves_state_witness :
    SQLiteTransactionManager.begin sqliteEnvConnFail TMState.init =
      (.error (.native "refused"), TMState.init, [.connect]) ∧
    SQLiteTransactionManager.execute sqliteEnvConnFail TMState.init
        sqlCreateItem [] =
      (.error (.native "refused"), TMState.init, [.connect]) := by
  have h := c9_connect_fault_leaves_state sqliteEnvConnFail mysqlEnvTrivial
    ⟨.ok 0⟩ false TMState.init (.native "refused") sqlCreateItem [] rfl
  exact h.1 rfl

/-- C5: for the SQL backends, executing a mutating statement while Idle
issues a native commit immediately after the statement (autocommit); while
Active, execute issues no commit at all. -/
theorem c5_autocommit_when_idle :
    ∀ (envS : SqliteEnv) (envM : MySQLEnv) (conn : Nat) (act : Bool)
      (st : TMState) (sql : String) (params : Params)
      (curS : SqliteCursor) (curM : MySQLCursor),
      st = { connection_obj := some conn, transaction_active := act } →
      isSelectSql sql = false →
      (envS.execR sql params = .ok curS →
        (act = false → envS.commitR = .ok () →
          (SQLiteTransactionManager.execute envS st sql params).2.2 =
            [.exec sql params, .commit]) ∧
        (act = true →
          (SQLiteTransactionManager.execute envS st sql params).2.2 =
            [.exec sql params])) ∧
      (envM.execR sql params = .ok curM →
        (act = false → envM.commitR = .ok () →
          (MySQLTransactionManager.execute envM st sql params).2.2 =
            [.exec sql params, .commit]) ∧
        (act = true →
          (MySQLTransactionManager.execute envM st sql params).2.2 =
            [.exec sql params])) := by
  intro envS envM conn act st sql params curS curM hst hsel
  subst hst
  refine ⟨fun hex => ⟨fun hact hok => ?_, fun hact => ?_⟩,
    fun hex => ⟨fun hact hok => ?_, fun hact => ?_⟩⟩ <;> subst hact
  · simp [SQLiteTransactionManager.execute, sqliteExecuteBody, hex, hsel, hok]
  · simp [SQLiteTransactionManager.execute, sqliteExecuteBody, hex, hsel]
  · simp [MySQLTransactionManager.execute, mysqlExecuteBody, hex, hsel, hok]
  · simp [MySQLTransactionManager.execute, mysqlExecuteBody, hex, hsel]

/-- Cursor value reporting three touched rows (sqlite). -/
def curS3 : SqliteCursor := { resultRows := [], description := [], rowcount := 3 }

/-- Environment whose execute yields `curS3` and whose other calls succeed. -/
def sqliteEnvCur3 : SqliteEnv :=
  { connectR := .ok 0, execR := fun _ _ => .ok curS3,
    commitR := .ok (), rollbackR := .ok () }

/-- Witness for C5 at a concrete mutating statement: Idle autocommits, Active
does not commit. -/
theorem c5_autocommit_when_idle_witness :
    (SQLiteTransactionManager.execute sqliteEnvCur3
        { connection_obj := some 0, transaction_active := false }
        sqlDeleteItem [("id", .int 1)]).2.2 =
      [.exec sqlDeleteItem [("id", .int 1)], .commit] ∧
    (SQLiteTransactionManager.execute sqliteEnvCur3
        { connection_obj := some 0, transaction_active := true }
        sqlDeleteItem [("id", .int 1)]).2.2 =
      [.exec sqlDeleteItem [("id", .int 1)]] := by
  have hI := c5_autocommit_when_idle sqliteEnvCur3 mysqlEnvTrivial 0 false
    { connection_obj := some 0, transaction_active := false }
    sqlDeleteItem [("id", .int 1)] curS3
    { resultRows := [], rowcount := 0 } rfl (by decide)
  have hA := c5_autocommit_when_idle sqliteEnvCur3 mysqlEnvTrivial 0 true
    { connection_obj := some 0, transaction_active := true }
    sqlDeleteItem [("id", .int 1)] curS3
    { resultRows := [], rowcount := 0 } rfl (by decide)
  exact ⟨(hI.1 rfl).1 rfl rfl, (hA.1 rfl).2 rfl⟩

/-- C8: for the SQL backends, execute() on a mutating statement returns
exactly one row whose only key is affected_rows, with value equal to the
driver cursor's rowcount. -/
theorem c8_affected_rows_marker :
    ∀ (envS : SqliteEnv) (envM : MySQLEnv) (conn : Nat) (act : Bool)
      (st : TMState) (sql : String) (params : Params)
      (curS : SqliteCursor) (curM : MySQLCursor),
      st = { connection_obj := some conn, transaction_active := act } →
      isSelectSql sql = false →
      (envS.execR sql params = .ok curS →
        (act = true ∨ envS.commitR = .ok ()) →
        (SQLiteTransactionManager.execute envS st sql params).1 =
          .ok [[("affected_rows", Scalar.int curS.rowcount)]]) ∧
      (envM.execR sql params = .ok curM →
        (act = true ∨ envM.commitR = .ok ()) →
        (MySQLTransactionManager.execute envM st sql params).1 =
          .ok [[("affected_rows", Scalar.int curM.rowcount)]]) := by
  intro envS envM conn act st sql params curS curM hst hsel
  subst hst
  refine ⟨fun hex hcase => ?_, fun hex hcase => ?_⟩ <;>
    rcases hcase with hact | hok <;> first
      | (subst hact;
         simp [SQLiteTransactionManager.execute, sqliteExecuteBody,
           MySQLTransactionManager.execute, mysqlExecuteBody, hex, hsel])
      | (cases act <;>
         simp [SQLiteTransactionManager.execute, sqliteExecuteBody,
           MySQLTransactionManager.execute, mysqlExecuteBody, hex, hsel, hok])

/-- Witness for C8 at a concrete DELETE touching three rows. -/
theorem c8_affected_rows_marker_witness :
    (SQLiteTransactionManager.execute sqliteEnvCur3
        { connection_obj := some 0, transaction_active := false }
        sqlDeleteItem [("id", .int 1)]).1 =
      .ok [[("affected_rows", Scalar.int 3)]] := by
  have h := c8_affected_rows_marker sqliteEnvCur3 mysqlEnvTrivial 0 false
    { connection_obj := some 0, transaction_active := false }
    sqlDeleteItem [("id", .int 1)] curS3
    { resultRows := [], rowcount := 0 } rfl (by decide)
  exact h.1 rfl (Or.inr rfl)

/-- Our model of Python whitespace is stable under ASCII uppercasing. -/
theorem pyWs_asciiUpper (c : Char) : pyWs (asciiUpper c) = pyWs c := by
  unfold asciiUpper; split <;> rfl

/-- Uppercasing after lowercasing agrees with uppercasing. -/
theorem asciiUpper_asciiLower (c : Char) :
    asciiUpper (asciiLower c) = asciiUpper c := by
  unfold asciiLower; split <;> rfl

/-- Stripping commutes with mapping a whitespace-preserving character map. -/
theorem stripL_map (f : Char → Char) (hf : ∀ c, pyWs (f c) = pyWs c)
    (s : List Char) : stripL (s.map f) = (stripL s).map f := by
  have hfe : pyWs ∘ f = pyWs := funext hf
  unfold stripL
  rw [List.dropWhile_map, hfe, ← List.map_reverse, List.dropWhile_map, hfe,
    ← List.map_reverse]

/-- Dropping leading whitespace ignores a prepended all-whitespace block. -/
theorem dropWhile_ws_append (ws s : List Char) (h : ∀ c ∈ ws, pyWs c = true) :
    (ws ++ s).dropWhile pyWs = s.dropWhile pyWs := by
  induction ws with
  | nil => rfl
  | cons a l ih =>
      have ha : pyWs a = true := h a (List.mem_cons_self a l)
      simp only [List.cons_append, List.dropWhile_cons, ha, if_true]
      exact ih (fun c hc => h c (List.mem_cons_of_mem a hc))

/-- The classifier ignores leading whitespace. -/
theorem isSelectL_ws_append (ws s : List Char) (h : ∀ c ∈ ws, pyWs c = true) :
    isSelectL (ws ++ s) = isSelectL s := by
  unfold isSelectL stripL
  rw [dropWhile_ws_append ws s h]

/-- The classifier agrees on any two case-variants of the same text. -/
theorem isSelectL_case_variant (s t : List Char)
    (h : s.map asciiUpper = t.map asciiUpper) : isSelectL s = isSelectL t := by
  unfold isSelectL
  rw [← stripL_map asciiUpper pyWs_asciiUpper s,
    ← stripL_map asciiUpper pyWs_asciiUpper t, h]

/-- C10: both SQL managers take the read branch exactly when the statement,
stripped and uppercased, starts with SELECT — returning the cursor rows —
and otherwise (for example for a WITH-prefixed query) return the single
affected_rows marker row; the classification ignores leading whitespace and
letter case. -/
theorem c10_read_iff_select :
    ∀ (envS : SqliteEnv) (envM : MySQLEnv) (conn : Nat) (act : Bool)
      (st : TMState) (sql : String) (params : Params)
      (curS : SqliteCursor) (curM : MySQLCursor),
      st = { connection_obj := some conn, transaction_active := act } →
      (isSelectSql sql = true → envS.execR sql params = .ok curS →
        (SQLiteTransactionManager.execute envS st sql params).1 =
          .ok (curS.resultRows.map fun r => curS.description.zip r)) ∧
      (isSelectSql sql = false → envS.execR sql params = .ok curS →
        (act = true ∨ envS.commitR = .ok ()) →
        (SQLiteTransactionManager.execute envS st sql params).1 =
          .ok [[("affected_rows", Scalar.int curS.rowcount)]]) ∧
      (isSelectSql sql = true → envM.execR sql params = .ok curM →
        (MySQLTransactionManager.execute envM st sql params).1 =
          .ok curM.resultRows) ∧
      (isSelectSql sql = false → envM.execR sql params = .ok curM →
        (act = true ∨ envM.commitR = .ok ()) →
        (MySQLTransactionManager.execute envM st sql params).1 =
          .ok [[("affected_rows", Scalar.int curM.rowcount)]]) ∧
      (∀ ws s : List Char, (∀ c ∈ ws, pyWs c = true) →
        isSelectL (ws ++ s) = isSelectL s) ∧
      (∀ s t : List Char, s.map asciiUpper = t.map asciiUpper →
        isSelectL s = isSelectL t) ∧
      isSelectSql "WITH t AS (SELECT 1) SELECT * FROM t" = false := by
  intro envS envM conn act st sql params curS curM hst
  subst hst
  refine ⟨fun hsel hex => ?_, fun hsel hex hcase => ?_, fun hsel hex => ?_,
    fun hsel hex hcase => ?_, isSelectL_ws_append, isSelectL_case_variant,
    by decide⟩
  · simp [SQLiteTransactionManager.execute, sqliteExecuteBody, hex, hsel]
  · rcases hcase with hact | hok
    · subst hact
      simp [SQLiteTransactionManager.execute, sqliteExecuteBody, hex, hsel]
    · cases act <;>
        simp [SQLiteTransactionManager.execute, sqliteExecuteBody, hex, hsel, hok]
  · simp [MySQLTransactionManager.execute, mysqlExecuteBody, hex, hsel]
  · rcases hcase with hact | hok
    · subst hact
      simp [MySQLTransactionManager.execute, mysqlExecuteBody, hex, hsel]
    · cases act <;>
        simp [MySQLTransactionManager.execute, mysqlExecuteBody, hex, hsel, hok]

/-- Cursor value for a three-column SELECT returning one row. -/
def curSel : SqliteCursor :=
  { resultRows := [[.int 1, .str "w", .int 9]],
    description := ["id", "name", "price"], rowcount := -1 }

/-- Environment whose execute yields `curSel`. -/
def sqliteEnvSel : SqliteEnv :=
  { connectR := .ok 0, execR := fun _ _ => .ok curSel,
    commitR := .ok (), rollbackR := .ok () }

/-- Witness for C10: a lowercase SELECT with leading whitespace takes the
read branch and returns zipped rows; leading whitespace and letter case do
not change the classification. -/
theorem c10_read_iff_select_witness :
    (SQLiteTransactionManager.execute sqliteEnvSel
        { connection_obj := some 0, transaction_active := false }
        " select * from item" []).1 =
      .ok [[("id", Scalar.int 1), ("name", Scalar.str "w"),
        ("price", Scalar.int 9)]] ∧
    isSelectL ([' ', '\t'] ++ "WITH x".data) = isSelectL "WITH x".data ∧
    isSelectL "select".data = isSelectL "SELECT".data := by
  have h := c10_read_iff_select sqliteEnvSel mysqlEnvTrivial 0 false
    { connection_obj := some 0, transaction_active := false }
    " select * from item" [] curSel { resultRows := [], rowcount := 0 } rfl
  refine ⟨?_, h.2.2.2.2.1 [' ', '\t'] "WITH x".data (by decide),
    h.2.2.2.2.2.1 "select".data "SELECT".data (by decide)⟩
  have hr := h.1 (by decide) rfl
  rw [hr]
  rfl
